import Mathlib

/-!
Verification of the data-synchronization core of a browser product-catalog
manager: the product cache, its optimistic update/rollback mutation protocol
and the staleness-gated read path (src/hooks/useProducts.ts and the query
semantics it relies on).
-/

set_option linter.unusedVariables false

namespace ProductStore

/-- Rating object of a product: rate and count (src types, used in
Product.rating). -/
structure Rating where
  rate : ℚ
  count : ℕ
deriving DecidableEq

/-- A Product as fetched from the remote service: id, title, price,
description, category, image URI and rating. -/
structure Product where
  id : ℤ
  title : String
  price : ℚ
  description : String
  category : String
  image : String
  rating : Rating
deriving DecidableEq

/-- ProductUpdatePayload: the partial product sent by a PUT update (title,
price, description, category), each field optional. -/
structure ProductUpdatePayload where
  title : Option String := none
  price : Option ℚ := none
  description : Option String := none
  category : Option String := none
deriving DecidableEq

/-- JS object spread of a partial payload over a product,
as in product.id === id ? ⟨...product, ...data⟩ : product in onMutate:
fields present in the payload override the product, the rest are kept. -/
def spreadPayload (p : Product) (d : ProductUpdatePayload) : Product :=
  { p with
    title := d.title.getD p.title
    price := d.price.getD p.price
    description := d.description.getD p.description
    category := d.category.getD p.category }

/-- JS object spread of a full Product over another, as in onSuccess where
data is the complete server-confirmed product: every field is taken from the
update. -/
def spreadFull (p u : Product) : Product :=
  { id := u.id
    title := u.title
    price := u.price
    description := u.description
    category := u.category
    image := u.image
    rating := u.rating }

/-- The slice of the query cache the mutation hooks touch: the
products-list entry keyed by the products key, and one detail entry per
product id (the product-id key). `none` models an absent entry. -/
@[ext]
structure Cache where
  products : Option (List Product)
  details : ℤ → Option Product

/-- queryClient.setQueryData on the products key with a direct value. -/
def Cache.setProducts (c : Cache) (ps : List Product) : Cache :=
  { c with products := some ps }

/-- queryClient.setQueryData on the products key with an updater of the form
old maps-to old?.f(...): when the entry is absent the updater returns
undefined and the entry stays absent. -/
def Cache.mapProducts (c : Cache) (f : List Product → List Product) : Cache :=
  { c with products := c.products.map f }

/-- queryClient.setQueryData on a product-id detail key with a direct
value. -/
def Cache.setDetail (c : Cache) (id : ℤ) (p : Product) : Cache :=
  { c with details := fun k => if k = id then some p else c.details k }

/-- queryClient.setQueryData on a product-id detail key with an updater of
the form old maps-to old ? f(old) : old: applied only when the entry is
present. -/
def Cache.mapDetail (c : Cache) (id : ℤ) (f : Product → Product) : Cache :=
  { c with details := fun k => if k = id then (c.details id).map f else c.details k }

/-- queryClient.removeQueries on a product-id detail key: deletes the entry
entirely. -/
def Cache.removeDetail (c : Cache) (id : ℤ) : Cache :=
  { c with details := fun k => if k = id then none else c.details k }

/-- The MutationContext returned by useUpdateProduct.onMutate: snapshots of
the products-list entry and of the detail entry for the mutated id. -/
structure UpdateContext where
  previousProducts : Option (List Product)
  previousProduct : Option Product
deriving DecidableEq

/-- useUpdateProduct.onMutate: snapshot the previous list and detail values,
then optimistically merge the payload into the matching list element (if the
list entry exists) and into the detail entry (if it exists). Runs
synchronously, before the network call resolves. -/
def updateOnMutate (c : Cache) (id : ℤ) (d : ProductUpdatePayload) :
    Cache × UpdateContext :=
  let previousProducts := c.products
  let previousProduct := c.details id
  let c1 := if previousProducts.isSome then
      c.mapProducts (List.map fun p => if p.id = id then spreadPayload p d else p)
    else c
  let c2 := if previousProduct.isSome then
      c1.mapDetail id (fun old => spreadPayload old d)
    else c1
  (c2, { previousProducts := previousProducts, previousProduct := previousProduct })

/-- useUpdateProduct.onError: roll back, restoring the list entry and the
detail entry from the MutationContext snapshots when they were present. -/
def updateOnError (c : Cache) (id : ℤ) (ctx : UpdateContext) : Cache :=
  let c1 := match ctx.previousProducts with
    | some ps => c.setProducts ps
    | none => c
  match ctx.previousProduct with
  | some p => c1.setDetail id p
  | none => c1

/-- useUpdateProduct.onSuccess: commit the server-confirmed product into the
list entry (spread over the matching element) and into the detail entry. -/
def updateOnSuccess (c : Cache) (serverData : Product) (id : ℤ) : Cache :=
  let c1 := c.mapProducts (List.map fun p => if p.id = id then spreadFull p serverData else p)
  c1.mapDetail id (fun old => spreadFull old serverData)

/-- The MutationContext returned by useDeleteProduct.onMutate: only the
products-list entry is snapshotted. -/
structure DeleteContext where
  previousProducts : Option (List Product)
deriving DecidableEq

/-- useDeleteProduct.onMutate: snapshot the previous list, optimistically
filter the deleted id out of the list entry (if present) and remove the
detail entry for that id via removeQueries. -/
def deleteOnMutate (c : Cache) (id : ℤ) : Cache × DeleteContext :=
  let previousProducts := c.products
  let c1 := if previousProducts.isSome then
      c.mapProducts (List.filter fun p => decide (p.id ≠ id))
    else c
  let c2 := c1.removeDetail id
  (c2, { previousProducts := previousProducts })

/-- useDeleteProduct.onError: roll back only the products-list entry from
the snapshot; the removed detail entry is not touched. -/
def deleteOnError (c : Cache) (id : ℤ) (ctx : DeleteContext) : Cache :=
  match ctx.previousProducts with
  | some ps => c.setProducts ps
  | none => c

/-- useDeleteProduct.onSuccess: keep the product filtered out of the list
entry. -/
def deleteOnSuccess (c : Cache) (id : ℤ) : Cache :=
  c.mapProducts (List.filter fun p => decide (p.id ≠ id))

/-- C2: for every update mutation that is optimistically applied and then
fails, the rollback restores the whole touched cache (the products-list
entry and the product-id detail entry) exactly to its pre-mutation state. -/
theorem update_rollback_exact (c : Cache) (id : ℤ) (d : ProductUpdatePayload) :
    updateOnError (updateOnMutate c id d).1 id (updateOnMutate c id d).2 = c := by
  rcases c with ⟨ps?, det⟩
  rcases hps : ps? with _ | ps <;> rcases hp : det id with _ | p <;>
    simp only [updateOnMutate, updateOnError, Cache.setProducts, Cache.setDetail,
      Cache.mapProducts, Cache.mapDetail, hps, hp, Option.isSome_some,
      Option.isSome_none, Option.map_some, Option.map_none, if_true, if_false,
      Bool.false_eq_true] <;>
    · ext k
      · simp [hps]
      · by_cases hk : k = id <;> simp [hk, hp]

/-- A zero rating used by the sample products. -/
def rating0 : Rating := { rate := 0, count := 0 }

/-- Sample product id 1, price 10. -/
def p110 : Product :=
  { id := 1, title := "A", price := 10, description := "d", category := "c",
    image := "i", rating := rating0 }

/-- Sample product id 2, price 20. -/
def p220 : Product :=
  { id := 2, title := "B", price := 20, description := "d", category := "c",
    image := "i", rating := rating0 }

/-- Update payload changing only the price to 15. -/
def priceTo15 : ProductUpdatePayload := { price := some 15 }

/-- A sample cache: list entry with two products, detail entry for id 1. -/
def sampleCache : Cache :=
  { products := some [p110, p220],
    details := fun k => if k = 1 then some p110 else none }

/-- A sample cache: list entry with two products, detail entry for id 2. -/
def sampleCacheDel : Cache :=
  { products := some [p110, p220],
    details := fun k => if k = 2 then some p220 else none }

/-- C6: the optimistic apply of an update replaces exactly the list element
whose id matches with that element merged with the payload, leaves every
other element and every other detail key unchanged, and merges the payload
into the detail entry when it is present. It runs in onMutate, before the
network call resolves. -/
theorem optimistic_update_shape (c : Cache) (id : ℤ) (d : ProductUpdatePayload)
    (ps : List Product) (h : c.products = some ps) :
    ((updateOnMutate c id d).1.products
        = some (ps.map fun p => if p.id = id then spreadPayload p d else p)) ∧
    (∀ p, c.details id = some p →
      (updateOnMutate c id d).1.details id = some (spreadPayload p d)) ∧
    (c.details id = none → (updateOnMutate c id d).1.details id = none) ∧
    (∀ k, k ≠ id → (updateOnMutate c id d).1.details k = c.details k) ∧
    (∀ q ∈ ps, q.id ≠ id →
      q ∈ ps.map fun p => if p.id = id then spreadPayload p d else p) := by
  refine ⟨?_, ?_, ?_, ?_, ?_⟩
  · rcases hp : c.details id with _ | p <;>
      simp [updateOnMutate, Cache.mapProducts, Cache.mapDetail, h, hp]
  · intro p hp
    simp [updateOnMutate, Cache.mapProducts, Cache.mapDetail, h, hp]
  · intro hp
    simp [updateOnMutate, Cache.mapProducts, Cache.mapDetail, h, hp]
  · intro k hk
    rcases hp : c.details id with _ | p <;>
      simp [updateOnMutate, Cache.mapProducts, Cache.mapDetail, h, hp, hk]
  · intro q hq hqid
    exact List.mem_map.2 ⟨q, hq, by simp [hqid]⟩

/-- Witness for C6 at a concrete cache: updating id 1 to price 15 merges
into the matching list element and the detail entry. -/
theorem optimistic_update_shape_witness :
    ((updateOnMutate sampleCache 1 priceTo15).1.products
        = some [spreadPayload p110 priceTo15, p220]) ∧
    ((updateOnMutate sampleCache 1 priceTo15).1.details 1
        = some (spreadPayload p110 priceTo15)) := by
  have h := optimistic_update_shape sampleCache 1 priceTo15 [p110, p220] rfl
  refine ⟨?_, h.2.1 p110 (by decide)⟩
  rw [h.1]
  decide

/-- C7: the optimistic apply of a delete filters exactly the matching id out
of the list entry and removes the detail entry; on confirmed success the
product stays out of the list and the detail entry stays absent; on failure
the list entry is restored to the snapshot. -/
theorem delete_cache_behaviour (c : Cache) (id : ℤ) (ps : List Product)
    (h : c.products = some ps) :
    ((deleteOnMutate c id).1.products
        = some (ps.filter fun p => decide (p.id ≠ id))) ∧
    ((deleteOnMutate c id).1.details id = none) ∧
    ((deleteOnSuccess (deleteOnMutate c id).1 id).products
        = some (ps.filter fun p => decide (p.id ≠ id))) ∧
    ((deleteOnSuccess (deleteOnMutate c id).1 id).details id = none) ∧
    ((deleteOnError (deleteOnMutate c id).1 id (deleteOnMutate c id).2).products
        = some ps) := by
  refine ⟨?_, ?_, ?_, ?_, ?_⟩ <;>
    simp [deleteOnMutate, deleteOnSuccess, deleteOnError, Cache.mapProducts,
      Cache.removeDetail, Cache.setProducts, h, List.filter_filter]

/-- Witness for C7 at the concrete cache of the spec example: deleting id 2
from the two-product list yields the one-product list, the detail entry for
id 2 is gone, and the failed delete restores the full list. -/
theorem delete_cache_behaviour_witness :
    ((deleteOnMutate sampleCacheDel 2).1.products = some [p110]) ∧
    ((deleteOnMutate sampleCacheDel 2).1.details 2 = none) ∧
    ((deleteOnError (deleteOnMutate sampleCacheDel 2).1 2
        (deleteOnMutate sampleCacheDel 2).2).products = some [p110, p220]) := by
  have h := delete_cache_behaviour sampleCacheDel 2 [p110, p220] rfl
  refine ⟨?_, h.2.1, h.2.2.2.2⟩
  rw [h.1]
  decide

/-- C1 counterexample: for a failed delete of id 2 on a cache whose detail
entry for id 2 held a value, the rollback does not restore that detail
entry — it stays removed, so the cache is not restored to its exact
pre-mutation state. -/
theorem delete_rollback_detail_dropped :
    sampleCacheDel.details 2 = some p220 ∧
    ¬ ((deleteOnError (deleteOnMutate sampleCacheDel 2).1 2
        (deleteOnMutate sampleCacheDel 2).2).details 2 = sampleCacheDel.details 2) := by
  decide

/-- C1 amended: on a failed delete, the products-list entry is restored to
its exact pre-mutation value, but the detail entry of the deleted id is left
removed (the delete MutationContext snapshots only the list); detail entries
of other ids are untouched. -/
theorem delete_rollback_list_only (c : Cache) (id : ℤ) :
    ((deleteOnError (deleteOnMutate c id).1 id (deleteOnMutate c id).2).products
        = c.products) ∧
    ((deleteOnError (deleteOnMutate c id).1 id (deleteOnMutate c id).2).details id
        = none) ∧
    (∀ k, k ≠ id →
      (deleteOnError (deleteOnMutate c id).1 id (deleteOnMutate c id).2).details k
        = c.details k) := by
  refine ⟨?_, ?_, ?_⟩
  · rcases hps : c.products with _ | ps <;>
      simp [deleteOnMutate, deleteOnError, Cache.mapProducts, Cache.removeDetail,
        Cache.setProducts, hps]
  · rcases hps : c.products with _ | ps <;>
      simp [deleteOnMutate, deleteOnError, Cache.mapProducts, Cache.removeDetail,
        Cache.setProducts, hps]
  · intro k hk
    rcases hps : c.products with _ | ps <;>
      simp [deleteOnMutate, deleteOnError, Cache.mapProducts, Cache.removeDetail,
        Cache.setProducts, hps, hk]

/-- Witness for the amended C1 at a concrete cache: the list is restored and
an untouched detail key keeps its value. -/
theorem delete_rollback_list_only_witness :
    ((deleteOnError (deleteOnMutate sampleCacheDel 2).1 2
        (deleteOnMutate sampleCacheDel 2).2).products = sampleCacheDel.products) ∧
    ((deleteOnError (deleteOnMutate sampleCacheDel 2).1 2
        (deleteOnMutate sampleCacheDel 2).2).details 1 = sampleCacheDel.details 1) :=
  ⟨(delete_rollback_list_only sampleCacheDel 2).1,
    (delete_rollback_list_only sampleCacheDel 2).2.2 1 (by decide)⟩

/-- The cache keys that invalidateQueries could be called with. -/
inductive CacheKey
  | products
  | product (id : ℤ)
  | categories
deriving DecidableEq

/-- Full lifecycle of a successful update mutation: onMutate (optimistic
apply), then onSuccess with the server-confirmed product. The second
component lists the cache keys for which the handlers schedule an automatic
refetch via invalidateQueries: the hook registers no onSettled handler and
onSuccess performs only setQueryData, so no key is ever scheduled. -/
def runUpdateSuccess (c : Cache) (id : ℤ) (d : ProductUpdatePayload)
    (server : Product) : Cache × List CacheKey :=
  let s := updateOnMutate c id d
  (updateOnSuccess s.1 server id, [])

/-- Full lifecycle of a successful delete mutation: onMutate, then
onSuccess. As for update, the handlers schedule no invalidation. -/
def runDeleteSuccess (c : Cache) (id : ℤ) : Cache × List CacheKey :=
  let s := deleteOnMutate c id
  (deleteOnSuccess s.1 id, [])

/-- Update payload changing only the title to B. -/
def titleToB : ProductUpdatePayload := { title := some "B" }

/-- Sample product id 1, title B, price 10: the server-confirmed result of
the end-to-end scenario. -/
def pB110 : Product :=
  { id := 1, title := "B", price := 10, description := "d", category := "c",
    image := "i", rating := rating0 }

/-- Cache of the end-to-end scenario: one product in the list, no detail
entries. -/
def endToEndCache : Cache :=
  { products := some [p110], details := fun _ => none }

/-- C3: a successful update or delete mutation schedules no automatic
background refetch or invalidation of any cache key, and in the end-to-end
scenario the committed server-confirmed product (title B, price 10) is the
value left in the list entry. -/
theorem no_auto_refetch_after_commit (c : Cache) (id1 id2 : ℤ)
    (d : ProductUpdatePayload) (server : Product) :
    ((runUpdateSuccess c id1 d server).2 = []) ∧
    ((runDeleteSuccess c id2).2 = []) ∧
    ((runUpdateSuccess endToEndCache 1 titleToB pB110).1.products
        = some [pB110]) := by
  refine ⟨rfl, rfl, ?_⟩
  decide

/-- An HTTP response with its numeric status code and parsed JSON body. -/
structure HttpResponse (α : Type) where
  status : ℕ
  body : α

/-- response.ok of the fetch API: true exactly for 2xx status codes. -/
def HttpResponse.ok {α : Type} (r : HttpResponse α) : Bool :=
  decide (200 ≤ r.status ∧ r.status ≤ 299)

/-- fetchProducts: GET /products; throws a fixed message when response.ok is
false, else resolves with the parsed body. -/
def fetchProducts (r : HttpResponse (List Product)) : Except String (List Product) :=
  if r.ok then Except.ok r.body else Except.error "Failed to fetch products"

/-- fetchProduct: GET /products/id; throws a fixed message when response.ok
is false, else resolves with the parsed body. -/
def fetchProduct (r : HttpResponse Product) : Except String Product :=
  if r.ok then Except.ok r.body else Except.error "Failed to fetch product"

/-- updateProduct: PUT /products/id; throws a fixed message when response.ok
is false, else resolves with the parsed body. -/
def updateProduct (r : HttpResponse Product) : Except String Product :=
  if r.ok then Except.ok r.body else Except.error "Failed to update product"

/-- deleteProduct: DELETE /products/id; throws a fixed message when
response.ok is false, else resolves with the id acknowledgement. -/
def deleteProduct (id : ℤ) (r : HttpResponse Unit) : Except String ℤ :=
  if r.ok then Except.ok id else Except.error "Failed to delete product"

/-- fetchCategories: GET /products/categories; throws a fixed message when
response.ok is false, else resolves with the parsed body. -/
def fetchCategories (r : HttpResponse (List String)) : Except String (List String) :=
  if r.ok then Except.ok r.body else Except.error "Failed to fetch categories"

/-- C8: each of the five fetch functions resolves on a 2xx response and
rejects with a fixed human-readable message exactly when response.ok is
false (a non-2xx status); the message does not depend on the particular
status code. -/
theorem fetch_functions_fail_iff_not_ok
    (rl : HttpResponse (List Product)) (rp ru : HttpResponse Product)
    (rd : HttpResponse Unit) (rc : HttpResponse (List String)) (id : ℤ) :
    (rl.ok = true ↔ (200 ≤ rl.status ∧ rl.status ≤ 299)) ∧
    (rl.ok = true → fetchProducts rl = Except.ok rl.body) ∧
    (rl.ok = false → fetchProducts rl = Except.error "Failed to fetch products") ∧
    (rp.ok = true → fetchProduct rp = Except.ok rp.body) ∧
    (rp.ok = false → fetchProduct rp = Except.error "Failed to fetch product") ∧
    (ru.ok = true → updateProduct ru = Except.ok ru.body) ∧
    (ru.ok = false → updateProduct ru = Except.error "Failed to update product") ∧
    (rd.ok = true → deleteProduct id rd = Except.ok id) ∧
    (rd.ok = false → deleteProduct id rd = Except.error "Failed to delete product") ∧
    (rc.ok = true → fetchCategories rc = Except.ok rc.body) ∧
    (rc.ok = false → fetchCategories rc = Except.error "Failed to fetch categories") := by
  refine ⟨by simp [HttpResponse.ok], ?_, ?_, ?_, ?_, ?_, ?_, ?_, ?_, ?_, ?_⟩ <;>
    intro h <;>
    simp [fetchProducts, fetchProduct, updateProduct, deleteProduct,
      fetchCategories, h]

/-- Witness for C8 at concrete responses: a 404 list fetch rejects with its
message, a 200 product fetch resolves, a 500 delete rejects with its
message. -/
theorem fetch_functions_fail_iff_not_ok_witness :
    fetchProducts ⟨404, []⟩ = Except.error "Failed to fetch products" ∧
    fetchProduct ⟨200, p110⟩ = Except.ok p110 ∧
    deleteProduct 2 ⟨500, ()⟩ = Except.error "Failed to delete product" := by
  have h := fetch_functions_fail_iff_not_ok ⟨404, ([] : List Product)⟩
    ⟨200, p110⟩ ⟨200, p110⟩ ⟨500, ()⟩ ⟨200, []⟩ 2
  exact ⟨h.2.2.1 (by decide), h.2.2.2.1 (by decide),
    h.2.2.2.2.2.2.2.2.1 (by decide)⟩

/-- Status of a cache entry, per the spec data model. -/
inductive QStatus
  | idle
  | loading
  | success
  | error
deriving DecidableEq

/-- Modelled from the spec: the CacheEntry record of the Query Controller
(held by the query library, which is not part of src/): last fetched data,
fetch timestamp, status and last error. -/
structure CacheEntry (α : Type) where
  data : Option α := none
  fetchedAt : ℤ := 0
  status : QStatus := QStatus.idle
  error : Option String := none
deriving DecidableEq

/-- Outcome of one read request: the synchronously served data, whether a
network fetch is issued, and the reported status. -/
structure ReadOutcome (α : Type) where
  served : Option α
  fetchIssued : Bool
  status : QStatus
deriving DecidableEq

/-- Modelled from the spec: the Query Controller read algorithm (the query
library core, not in src/): a disabled read is idle with no fetch; a
missing entry loads and fetches; a fresh entry (now − fetchedAt <
staleTime) is served from cache with no fetch; a stale entry is served from
cache while a background fetch is issued. -/
def readRequest {α : Type} (enabled : Bool) (entry : Option (CacheEntry α))
    (now staleTime : ℤ) : ReadOutcome α :=
  if enabled then
    match entry with
    | none => { served := none, fetchIssued := true, status := QStatus.loading }
    | some e =>
      if now - e.fetchedAt < staleTime then
        { served := e.data, fetchIssued := false, status := e.status }
      else
        { served := e.data, fetchIssued := true, status := e.status }
  else { served := none, fetchIssued := false, status := QStatus.idle }

/-- Modelled from the spec: per-key state of the Query Controller with
request coalescing (not in src/): the cache entry, whether a fetch is in
flight, the callers waiting on it, and how many network calls were made. -/
structure CoalesceState (α : Type) where
  entry : Option (CacheEntry α) := none
  inflight : Bool := false
  waiters : List ℕ := []
  fetchCount : ℕ := 0

/-- Modelled from the spec: a read arriving at the per-key state. While a
fetch is in flight the read coalesces onto it with no new network call;
otherwise the read algorithm runs and, if it issues a fetch, exactly one
network call starts. -/
def coalesceRead {α : Type} (s : CoalesceState α) (caller : ℕ)
    (now staleTime : ℤ) : CoalesceState α :=
  if s.inflight then { s with waiters := s.waiters ++ [caller] }
  else
    let o := readRequest true s.entry now staleTime
    if o.fetchIssued then
      { s with
          inflight := true
          waiters := s.waiters ++ [caller]
          fetchCount := s.fetchCount + 1 }
    else s

/-- Modelled from the spec: resolution of the single in-flight fetch. On
success the entry is overwritten via set; on failure setError keeps the
stale data. Every waiting caller receives the same resolution. -/
def coalesceResolve {α : Type} (s : CoalesceState α) (res : Except String α)
    (now : ℤ) : CoalesceState α × List (ℕ × Except String α) :=
  let e :=
    match res with
    | Except.ok v =>
      { data := some v
        fetchedAt := now
        status := QStatus.success
        error := none }
    | Except.error m =>
      let e0 := s.entry.getD {}
      { e0 with status := QStatus.error, error := some m }
  ({ entry := some e
     inflight := false
     waiters := []
     fetchCount := s.fetchCount },
    s.waiters.map fun w => (w, res))

/-- C9: two reads issued for the same key while no entry exists make exactly
one network call between them, and on resolution both callers receive the
same result. -/
theorem coalesced_reads_single_fetch {α : Type} (a b : ℕ)
    (t1 t2 t3 st : ℤ) (res : Except String α) :
    ((coalesceRead (coalesceRead ({} : CoalesceState α) a t1 st) b t2 st).fetchCount
        = 1) ∧
    ((coalesceResolve
        (coalesceRead (coalesceRead ({} : CoalesceState α) a t1 st) b t2 st)
        res t3).2
        = [(a, res), (b, res)]) := by
  constructor <;> simp [coalesceRead, coalesceResolve, readRequest]

/-- C5: a read on a fresh entry (now − fetchedAt < staleTime) serves the
cached data with no network call; a read on a stale entry still serves the
cached data synchronously but issues a background fetch, and when no fetch
is in flight that is exactly one new network call. -/
theorem staleness_gating {α : Type} (e : CacheEntry α) (now st : ℤ)
    (s : CoalesceState α) (caller : ℕ) :
    ((now - e.fetchedAt < st) →
      readRequest true (some e) now st
        = { served := e.data, fetchIssued := false, status := e.status }) ∧
    (st ≤ now - e.fetchedAt →
      (readRequest true (some e) now st).served = e.data ∧
      (readRequest true (some e) now st).fetchIssued = true) ∧
    (s.inflight = false → s.entry = some e → st ≤ now - e.fetchedAt →
      (coalesceRead s caller now st).fetchCount = s.fetchCount + 1) := by
  refine ⟨?_, ?_, ?_⟩
  · intro h
    simp [readRequest, h]
  · intro h
    simp [readRequest, not_lt.2 h]
  · intro h1 h2 h3
    simp [coalesceRead, h1, h2, readRequest, not_lt.2 h3]

/-- A cache entry holding the sample list, fetched at t = 0. -/
def listEntryT0 : CacheEntry (List Product) :=
  { data := some [p110], fetchedAt := 0, status := QStatus.success }

/-- Witness for C5 with staleTime five minutes (300000 ms) and a fetch at
t = 0: a re-read at t = 4 min serves the cache with no network call, a
re-read at t = 6 min serves the cache and issues exactly one background
fetch. -/
theorem staleness_gating_witness :
    (readRequest true (some listEntryT0) 240000 300000
        = { served := some [p110]
            fetchIssued := false
            status := QStatus.success }) ∧
    ((readRequest true (some listEntryT0) 360000 300000).served
        = some [p110] ∧
      (readRequest true (some listEntryT0) 360000 300000).fetchIssued = true) ∧
    ((coalesceRead { entry := some listEntryT0 } 7 360000 300000).fetchCount
        = 0 + 1) := by
  refine ⟨?_, ?_, ?_⟩
  · exact (staleness_gating listEntryT0 240000 300000 {} 0).1 (by decide)
  · exact (staleness_gating listEntryT0 360000 300000 {} 0).2.1 (by decide)
  · exact (staleness_gating listEntryT0 360000 300000
      { entry := some listEntryT0 } 7).2.2 rfl rfl (by decide)

/-- The enabled option computed by useProduct: the caller flag AND id > 0. -/
def useProductEnabled (id : ℤ) (enabled : Bool) : Bool :=
  enabled && decide (0 < id)

/-- The query id ProductDetailModal passes to useProduct: productId, or 0
when productId is null. -/
def modalQueryId (productId : Option ℤ) : ℤ :=
  productId.getD 0

/-- The enabled flag ProductDetailModal passes to useProduct: the modal is
open and productId is non-null. -/
def modalQueryEnabled (isOpen : Bool) (productId : Option ℤ) : Bool :=
  isOpen && productId.isSome

/-- C10: a useProduct read issues a network fetch only when the caller flag
is true and id > 0; for a non-positive id — in particular the 0 the modal
substitutes for a null productId — the query stays idle with no fetch even
when the caller flag is true. -/
theorem useProduct_fetch_gating (id : ℤ) (enabled : Bool)
    (entry : Option (CacheEntry Product)) (now st : ℤ) :
    ((readRequest (useProductEnabled id enabled) entry now st).fetchIssued = true →
      (enabled = true ∧ 0 < id)) ∧
    (id ≤ 0 →
      readRequest (useProductEnabled id enabled) entry now st
        = { served := none, fetchIssued := false, status := QStatus.idle }) ∧
    (modalQueryId none = 0 ∧
      readRequest (useProductEnabled (modalQueryId none) true) entry now st
        = { served := none, fetchIssued := false, status := QStatus.idle }) := by
  refine ⟨?_, ?_, rfl, ?_⟩
  · intro hf
    cases henb : useProductEnabled id enabled with
    | false =>
      rw [henb] at hf
      simp [readRequest] at hf
    | true =>
      have h2 := henb
      simp only [useProductEnabled, Bool.and_eq_true, decide_eq_true_eq] at h2
      exact h2
  · intro hle
    have hne : useProductEnabled id enabled = false := by
      simp [useProductEnabled, not_lt.2 hle]
    rw [hne]
    simp [readRequest]
  · have hne : useProductEnabled (modalQueryId none) true = false := by
      simp [useProductEnabled, modalQueryId]
    rw [hne]
    simp [readRequest]

/-- Witness for C10: with id 0 and the caller flag true, the read is idle
and issues no fetch. -/
theorem useProduct_fetch_gating_witness :
    readRequest (useProductEnabled 0 true) (none : Option (CacheEntry Product)) 0 0
      = { served := none, fetchIssued := false, status := QStatus.idle } :=
  (useProduct_fetch_gating 0 true none 0 0).2.1 (by decide)

/-- An in-flight products-list read; cancelled means its eventual resolution
will be ignored. -/
structure ReadInFlight where
  cancelled : Bool
deriving DecidableEq

/-- The cache together with the at most one in-flight read of the
products-list key. -/
structure SysState where
  cache : Cache
  inflight : Option ReadInFlight

/-- Modelled from the spec: starting a products-list read (library read
path, not in src/); concurrent reads coalesce, so while one is in flight no
new one starts. -/
def startListRead (s : SysState) : SysState :=
  match s.inflight with
  | some _ => s
  | none => { s with inflight := some { cancelled := false } }

/-- Modelled from the spec: queryClient.cancelQueries on the products key
(library call, not in src/): a read is cancelled by marking its eventual
resolution as ignored; the underlying network request is not halted. -/
def cancelListReads (s : SysState) : SysState :=
  { s with inflight := s.inflight.map fun r => { r with cancelled := true } }

/-- useUpdateProduct.onMutate at the system level: first await cancelQueries
for the touched keys, then snapshot and optimistically apply. -/
def mutStartUpdate (s : SysState) (id : ℤ) (d : ProductUpdatePayload) :
    SysState × UpdateContext :=
  let s1 := cancelListReads s
  let r := updateOnMutate s1.cache id d
  ({ s1 with cache := r.1 }, r.2)

/-- Commit of a successful update: onSuccess applied to the cache; the
in-flight read bookkeeping is untouched. -/
def mutCommitUpdate (s : SysState) (server : Product) (id : ℤ) : SysState :=
  { s with cache := updateOnSuccess s.cache server id }

/-- Modelled from the spec: resolution of the in-flight products-list read
(library resolution path, not in src/). A cancelled read is dropped;
otherwise its data is written to the list entry. -/
def resolveListRead (s : SysState) (ps : List Product) : SysState :=
  match s.inflight with
  | none => s
  | some r =>
    if r.cancelled then { s with inflight := none }
    else { cache := s.cache.setProducts ps, inflight := none }

/-- C4: a products-list read in flight before an update mutation starts is
cancelled at the start of the mutation, so when it resolves after a
successful commit its stale data never overwrites the committed cache. -/
theorem committed_update_not_overwritten (s0 : SysState) (id : ℤ)
    (d : ProductUpdatePayload) (server : Product) (stale : List Product) :
    (((mutStartUpdate (startListRead s0) id d).1.inflight.all
        fun r => r.cancelled) = true) ∧
    ((resolveListRead
        (mutCommitUpdate (mutStartUpdate (startListRead s0) id d).1 server id)
        stale).cache
      = (mutCommitUpdate (mutStartUpdate (startListRead s0) id d).1 server
          id).cache) := by
  rcases s0 with ⟨c, _ | ⟨b⟩⟩ <;>
    constructor <;>
    simp [startListRead, cancelListReads, mutStartUpdate, mutCommitUpdate,
      resolveListRead]

end ProductStore
